import Mathlib

/-!
Shallow embedding of the rubric peer-evaluation application (`app.py`) and a
verification of its specification.  Pure helper functions of the source are
translated one-to-one; the Streamlit panels are modelled by explicit state
passing: every function that in the source reads `st.session_state` or a JSON
file takes the corresponding store as an argument, and every function that
writes one returns the new store.  Python floats are modelled by `ℚ` (all the
constants involved are small decimal fractions), Python ints by `Int`/`Nat`,
Python dicts by association lists, and wall-clock time by a rational number of
minutes.
-/

namespace RubricaApp

/-- One evaluation record, as built and stored in `calificaciones.json`
(source: the dict literal at lines 483–489 of `app.py`): evaluator id,
evaluator's own group, rated group, mapping from criterion id to letter grade,
and a timestamp. -/
structure Calificacion where
  id_estudiante : String
  grupo_afiliacion : String
  grupo_calificado : String
  calificaciones : List (String × String)
  fecha : String
deriving DecidableEq

/-- One entry of the session audit log kept under the `"sesiones"` key of
`calificaciones.json` (source lines 552–556). -/
structure SesionRecord where
  inicio : String
  fin : String
  duracion_minutos : Int
deriving DecidableEq

/-- The submissions store (`calificaciones.json` after `cargar_datos`): both
keys are always present. -/
structure Datos where
  calificaciones : List Calificacion
  sesiones : List SesionRecord
deriving DecidableEq

/-- The rubric configuration (`configuracion_rubrica.json` after
`cargar_configuracion`): descriptor texts per criterion and level, and the
weight percentages per indicator group. -/
structure Config where
  descriptores : List (String × List (String × String))
  pesos : List (String × Int)
deriving DecidableEq

/-- Source line 228: `[f"GRUPO {i}" for i in range(1, 9)]`. -/
def GRUPOS_DISPONIBLES : List String :=
  (List.range' 1 8).map (fun i => "GRUPO " ++ toString i)

/-- Source lines 230–234. -/
def RUBRICA_ESTRUCTURA : List (String × List String) :=
  [("ID11: IDENTIFICAR", ["C111", "C112"]),
   ("ID12: FORMULAR", ["C121", "C122"]),
   ("ID13: RESOLVER", ["C131", "C132", "C133"])]

/-- Source line 236. -/
def SUBCRITERIOS_POR_NIVEL : List (String × String) :=
  [("A", "1"), ("B", "2"), ("C", "3"), ("D", "4"), ("E", "5")]

/-- Source lines 237–242. -/
def SUBCRITERIOS_ESPECIALES : List (String × List (String × String)) :=
  [("C112", [("A", "6"), ("B", "7"), ("C", "8"), ("D", "9"), ("E", "10")]),
   ("C122", [("A", "6"), ("B", "7"), ("C", "8"), ("D", "9"), ("E", "10")]),
   ("C132", [("A", "6"), ("B", "7"), ("C", "8"), ("D", "9"), ("E", "10")]),
   ("C133", [("A", "11"), ("B", "12"), ("C", "13"), ("D", "14"), ("E", "15")])]

/-- Source lines 244–250. -/
def RANGOS_NUMERICOS : List (String × (ℚ × ℚ)) :=
  [("A", (4.5, 5.0)), ("B", (4.0, 4.5)), ("C", (3.5, 4.0)),
   ("D", (3.0, 3.5)), ("E", (0.0, 3.0))]

/-- Source lines 257–262.  In Python an unknown `nivel` would raise a
`KeyError`; the aggregator only ever calls this with a level taken from a
stored grade, and the theorems below restrict stores to the letter grades the
form can produce, so the `.getD ""` branch is never reached there. -/
def obtener_codigo_subcriterio (criterio nivel : String) : String :=
  match SUBCRITERIOS_ESPECIALES.lookup criterio with
  | some tabla => criterio ++ ((tabla.lookup nivel).getD "")
  | none => criterio ++ ((SUBCRITERIOS_POR_NIVEL.lookup nivel).getD "")

/-- Source lines 265–269. -/
def obtener_descriptor (config : Config) (criterio nivel : String) : String :=
  match config.descriptores.lookup criterio with
  | some descriptores => (descriptores.lookup nivel).getD "Descriptor no disponible"
  | none => "Descriptor no disponible"

/-- The sequence of distinct values of a list in order of first occurrence:
the key order of a Python `Counter`/`dict` built by insertion. -/
def firstOccList : List String → List String
  | [] => []
  | x :: xs => x :: firstOccList (xs.filter (fun y => y != x))
termination_by l => l.length
decreasing_by
  simp only [List.length_cons]
  exact Nat.lt_succ_of_le (List.length_filter_le _ _)

/-- Left-to-right maximum by count, keeping the incumbent on ties: the element
`Counter.most_common(1)` reports (Python's `max` over insertion-ordered keys
returns the first key attaining the maximal count). -/
def mostCommonAux (cnt : String → Nat) : String → List String → String
  | best, [] => best
  | best, x :: xs => if cnt best < cnt x then mostCommonAux cnt x xs else mostCommonAux cnt best xs

/-- Source lines 272–276: `None` on the empty list, otherwise
`Counter(calificaciones).most_common(1)[0][0]`.  The `Counter`'s keys are the
distinct grades in first-occurrence order (`firstOccList`), and
`most_common(1)` picks the first key of maximal count (`mostCommonAux`).  The
inner `[]` branch is unreachable: `firstOccList` of a non-empty list is
non-empty. -/
def calcular_moda (calificaciones : List String) : Option String :=
  if calificaciones.isEmpty then none
  else
    match firstOccList calificaciones with
    | [] => none
    | x :: xs => some (mostCommonAux (fun s => calificaciones.count s) x xs)

/-- Source lines 279–283. -/
def letra_a_numero (letra : String) : ℚ :=
  match RANGOS_NUMERICOS.lookup letra with
  | none => 0.0
  | some (min_val, max_val) => (min_val + max_val) / 2.0

/-- Source lines 286–287. -/
def obtener_grupos_a_calificar (grupo_afiliacion : String) : List String :=
  GRUPOS_DISPONIBLES.filter (fun g => g != grupo_afiliacion)

/-- Python `str.upper()`, modelled characterwise over the string's character
list (on the ASCII ids at hand this is uppercasing each character). -/
def py_upper (s : String) : String := ⟨s.data.map Char.toUpper⟩

/-- Python `str.strip()`: remove whitespace from both ends. -/
def py_strip (s : String) : String :=
  ⟨((s.data.dropWhile Char.isWhitespace).reverse.dropWhile Char.isWhitespace).reverse⟩

/-- Source lines 290–302.  The source first reloads the shared store; here the
(fresh) store is the explicit `datos` argument. -/
def verificar_calificacion_existente (datos : Datos)
    (id_estudiante grupo_afiliacion grupo_a_calificar : String) : Bool :=
  let id_limpio := py_upper (py_strip id_estudiante)
  datos.calificaciones.any (fun cal =>
    py_upper cal.id_estudiante == id_limpio &&
    cal.grupo_afiliacion == grupo_afiliacion &&
    cal.grupo_calificado == grupo_a_calificar)

/-- Per-criterion row of an aggregation result (source lines 334–341). -/
structure CriterioResultado where
  cualitativa : String
  numerica : ℚ
  total_calificaciones : Nat
  codigo_subcriterio : String
  descriptor : String
  distribucion : List (String × Nat)
deriving DecidableEq

/-- Per-indicator-group row of an aggregation result (source lines 351–354). -/
structure IdResultado where
  promedio : ℚ
  peso : Int
deriving DecidableEq

/-- An aggregation result (source lines 315–321). -/
structure Resultados where
  grupo_calificado : String
  criterios : List (String × CriterioResultado)
  ids : List (String × IdResultado)
  final : ℚ
  total_evaluadores : Nat
deriving DecidableEq

/-- Source lines 325–330: the grades given to `criterio` by the submissions
rating the group, in submission order.  The Python comprehension guards with
`criterio in cal["calificaciones"]` and then drops `None`s; since every stored
value is a string, this is exactly the successful lookups. -/
def califs_criterio (calificaciones_grupo : List Calificacion) (criterio : String) :
    List String :=
  calificaciones_grupo.filterMap (fun cal => cal.calificaciones.lookup criterio)

/-- `dict(Counter(l))`: each distinct value with its count, keys in
first-occurrence order (source line 340). -/
def distribucionConteo (l : List String) : List (String × Nat) :=
  (firstOccList l).map (fun g => (g, l.count g))

/-- Source lines 332–341: the entry recorded in `resultados["criterios"]` for
one criterion, or `none` when no submission graded it.  The source guards with
`if califs_criterio:`; since `calcular_moda` returns `None` exactly on the
empty list, matching on the mode is the same guard. -/
def criterio_entry (config : Config) (calificaciones_grupo : List Calificacion)
    (criterio : String) : Option (String × CriterioResultado) :=
  match calcular_moda (califs_criterio calificaciones_grupo criterio) with
  | none => none
  | some moda =>
      some (criterio,
        { cualitativa := moda
          numerica := letra_a_numero moda
          total_calificaciones := (califs_criterio calificaciones_grupo criterio).length
          codigo_subcriterio := obtener_codigo_subcriterio criterio moda
          descriptor := obtener_descriptor config criterio moda
          distribucion := distribucionConteo (califs_criterio calificaciones_grupo criterio) })

/-- The dict `resultados["criterios"]` built by the first loop (source lines
323–341): entries for all rubric criteria that received at least one grade, in
rubric order. -/
def criterios_dict (config : Config) (calificaciones_grupo : List Calificacion) :
    List (String × CriterioResultado) :=
  (RUBRICA_ESTRUCTURA.map (fun p => p.2.filterMap (criterio_entry config calificaciones_grupo))).flatten

/-- `config["pesos"].get(key, 0)` (source lines 353 and 359). -/
def getPeso (config : Config) (key : String) : Int :=
  (config.pesos.lookup key).getD 0

/-- Source lines 344–347: the numeric values of the criteria of one indicator
group that appear in `resultados["criterios"]`. -/
def valores_criterios (config : Config) (calificaciones_grupo : List Calificacion)
    (criterios : List String) : List ℚ :=
  criterios.filterMap (fun criterio =>
    ((criterios_dict config calificaciones_grupo).lookup criterio).map (fun r => r.numerica))

/-- Source lines 349–354: the entry recorded in `resultados["ids"]` for one
indicator group, or `none` when none of its criteria was scored
(`if valores_criterios:`).  `key_peso = id_nombre[:4]`. -/
def id_entry (config : Config) (calificaciones_grupo : List Calificacion)
    (p : String × List String) : Option (String × IdResultado) :=
  if (valores_criterios config calificaciones_grupo p.2).isEmpty then none
  else some (p.1,
    { promedio := (valores_criterios config calificaciones_grupo p.2).sum /
        ((valores_criterios config calificaciones_grupo p.2).length : ℚ)
      peso := getPeso config (p.1.take 4) })

/-- The dict `resultados["ids"]` built by the second loop (source lines
343–354). -/
def ids_dict (config : Config) (calificaciones_grupo : List Calificacion) :
    List (String × IdResultado) :=
  RUBRICA_ESTRUCTURA.filterMap (id_entry config calificaciones_grupo)

/-- Source lines 356–360: `nota_final += datos_id["promedio"] * peso` with
`peso = config["pesos"].get(id_nombre[:4], 0) / 100.0` re-read from the
configuration. -/
def nota_final (config : Config) (ids : List (String × IdResultado)) : ℚ :=
  (ids.map (fun q => q.2.promedio * ((getPeso config (q.1.take 4) : ℚ) / 100))).sum

/-- Source lines 308–311: the variable `calificaciones_grupo`, the submissions
whose rated group is the requested one. -/
def calificaciones_grupo_de (datos : Datos) (grupo_calificado : String) : List Calificacion :=
  datos.calificaciones.filter (fun cal => cal.grupo_calificado == grupo_calificado)

/-- Source lines 305–363 (`calcular_promedios_grupo`).  The source first
reloads the shared store; here the store is the explicit `datos` argument.
`total_evaluadores = len(set(cal["id_estudiante"] for cal in
calificaciones_grupo))` is the number of distinct evaluator-id strings. -/
def calcular_promedios_grupo (config : Config) (datos : Datos) (grupo_calificado : String) :
    Option Resultados :=
  if (calificaciones_grupo_de datos grupo_calificado).isEmpty then none
  else some
    { grupo_calificado := grupo_calificado
      criterios := criterios_dict config (calificaciones_grupo_de datos grupo_calificado)
      ids := ids_dict config (calificaciones_grupo_de datos grupo_calificado)
      final := nota_final config (ids_dict config (calificaciones_grupo_de datos grupo_calificado))
      total_evaluadores :=
        (((calificaciones_grupo_de datos grupo_calificado).map
          (fun cal => cal.id_estudiante)).dedup).length }

/-- The recoverable validation failures of the submission path (§7 of the
spec): self-rating attempt, duplicate submission, empty grade set. -/
inductive ValidationError
  | autoCalificacion
  | duplicada
  | sinCalificaciones
deriving DecidableEq

/-- The submission write path of the student panel (source lines 408–492),
modelled as one operation on the store.  In order, the panel (1) only offers
rated groups from `obtener_grupos_a_calificar` (excluding the evaluator's own
group), (2) aborts if `verificar_calificacion_existente` finds the same
(evaluator, own group, rated group) triple, (3) aborts if the grade mapping is
empty (`if calificaciones: ... else: st.error`), and otherwise appends the
record — with the evaluator id stripped, line 484 — and persists the store.
An error leaves the store untouched (nothing is written before the final
append). -/
def enviar_calificacion (datos : Datos)
    (id_estudiante grupo_afiliacion grupo_a_calificar : String)
    (calificaciones : List (String × String)) (fecha : String) :
    Except ValidationError Datos :=
  if !(obtener_grupos_a_calificar grupo_afiliacion).contains grupo_a_calificar then
    .error .autoCalificacion
  else if verificar_calificacion_existente datos id_estudiante grupo_afiliacion grupo_a_calificar then
    .error .duplicada
  else if calificaciones.isEmpty then
    .error .sinCalificaciones
  else
    .ok { datos with
          calificaciones := datos.calificaciones ++
            [{ id_estudiante := py_strip id_estudiante
               grupo_afiliacion := grupo_afiliacion
               grupo_calificado := grupo_a_calificar
               calificaciones := calificaciones
               fecha := fecha }] }

/-- The global session state (`estado_sesion.json`, source lines 139–145).
Times are rational numbers of minutes. -/
structure EstadoSesion where
  sesion_activa : Bool
  tiempo_fin : Option ℚ
  duracion_minutos : Option Int
  updated_at : Option ℚ
  updated_by : Option String
deriving DecidableEq

/-- Source lines 134–166 (`cargar_estado_sesion`): reading the stored state
auto-expires it — if it is active with an expiry in the past the read path
itself flips `sesion_activa` to false (and persists the flipped state; the
returned record is also the one written back). -/
def cargar_estado_sesion (almacenado : EstadoSesion) (now : ℚ) : EstadoSesion :=
  if almacenado.sesion_activa then
    match almacenado.tiempo_fin with
    | some fin =>
        if now > fin then
          { almacenado with
            sesion_activa := false
            updated_at := some now
            updated_by := some "auto-expire" }
        else almacenado
    | none => almacenado
  else almacenado

/-- Source lines 169–183 (`guardar_estado_sesion`). -/
def guardar_estado_sesion (sesion_activa : Bool) (tiempo_fin : Option ℚ)
    (duracion_minutos : Option Int) (now : ℚ) (updated_by : String) : EstadoSesion :=
  { sesion_activa := sesion_activa
    tiempo_fin := tiempo_fin
    duracion_minutos := duracion_minutos
    updated_at := some now
    updated_by := some updated_by }

/-- The professor's start-session action (source lines 546–548):
`fin = datetime.now() + timedelta(minutes=duracion)`. -/
def iniciar_sesion (now : ℚ) (duracion : Int) : EstadoSesion :=
  guardar_estado_sesion true (some (now + (duracion : ℚ))) (some duracion) now "profesor"

/-- The session gate of the student panel (source lines 374–391): sync the
global state (which auto-expires), reject if the session is inactive, and
reject if the current time is past `tiempo_fin` (that branch additionally
persists the deactivated state).  Only when this returns `true` does the panel
show the form and accept a submission. -/
def panel_estudiante_permite_envio (almacenado : EstadoSesion) (now : ℚ) : Bool :=
  let estado := cargar_estado_sesion almacenado now
  if !estado.sesion_activa then false
  else
    match estado.tiempo_fin with
    | some fin => if now > fin then false else true
    | none => true

/-- The observable states of a persisted JSON file: absent, present but not
valid JSON, or parsed content. -/
inductive FileContent (α : Type)
  | missing
  | malformed
  | parsed (contenido : α)

/-- The parsed shape of `calificaciones.json`: either top-level key may be
absent. -/
structure DatosFile where
  calificaciones : Option (List Calificacion)
  sesiones : Option (List SesionRecord)

/-- Source lines 50–66 (`_load_json_shared`): a missing file and malformed
JSON both yield the caller's default; otherwise the parsed content. -/
def load_json_shared {α : Type} (file : FileContent α) (default : α) : α :=
  match file with
  | .missing => default
  | .malformed => default
  | .parsed contenido => contenido

/-- Source lines 88–94 (`cargar_datos`): load with default
`{"calificaciones": [], "sesiones": []}`, then `setdefault` both keys
(modelled by `Option.getD`).  Total: it never fails. -/
def cargar_datos (file : FileContent DatosFile) : Datos :=
  let defaultDatos : DatosFile := { calificaciones := some [], sesiones := some [] }
  let datos := load_json_shared file defaultDatos
  { calificaciones := datos.calificaciones.getD []
    sesiones := datos.sesiones.getD [] }

/-- The fatal startup failures of configuration loading (source lines
104–122): missing file, corrupt JSON, or missing top-level keys — each ends in
`st.stop()`. -/
inductive ConfigError
  | noEncontrado
  | corrupto
  | clavesFaltantes
deriving DecidableEq

/-- The parsed shape of `configuracion_rubrica.json`: either top-level key may
be absent. -/
structure ConfigFile where
  descriptores : Option (List (String × List (String × String)))
  pesos : Option (List (String × Int))

/-- Source lines 112–113: `config["pesos"].setdefault(k, 0)` for the three
weight keys, in order. -/
def pesos_setdefault (pesos : List (String × Int)) : List (String × Int) :=
  ["ID11", "ID12", "ID13"].foldl
    (fun l k => if (l.lookup k).isSome then l else l ++ [(k, 0)]) pesos

/-- Source lines 102–122 (`cargar_configuracion`): unlike `cargar_datos`, a
missing or corrupt configuration file is fatal (`st.stop()`), as is a parsed
file lacking `descriptores` or `pesos`. -/
def cargar_configuracion (file : FileContent ConfigFile) : Except ConfigError Config :=
  match file with
  | .missing => .error .noEncontrado
  | .malformed => .error .corrupto
  | .parsed c =>
      match c.descriptores, c.pesos with
      | some d, some p => .ok { descriptores := d, pesos := pesos_setdefault p }
      | _, _ => .error .clavesFaltantes

/-- Python dict assignment `d[k] = v` on an association list: replace in place
if the key exists, append otherwise. -/
def dict_set (l : List (String × Int)) (k : String) (v : Int) : List (String × Int) :=
  if (l.lookup k).isSome then
    l.map (fun p => if p.1 == k then (k, v) else p)
  else l ++ [(k, v)]

/-- Source line 609: the ceiling offered to the ID12 slider. -/
def max_id12 (nuevo_peso_id11 : Int) : Int := max 0 (100 - nuevo_peso_id11)

/-- Source line 620: the third weight is derived, not edited. -/
def nuevo_peso_id13 (nuevo_peso_id11 nuevo_peso_id12 : Int) : Int :=
  100 - nuevo_peso_id11 - nuevo_peso_id12

/-- The professor's save-weights action (source lines 623–627): store the two
slider values and the derived third weight into `config["pesos"]`. -/
def guardar_pesos (pesos : List (String × Int)) (nuevo_peso_id11 nuevo_peso_id12 : Int) :
    List (String × Int) :=
  dict_set (dict_set (dict_set pesos "ID11" nuevo_peso_id11) "ID12" nuevo_peso_id12)
    "ID13" (nuevo_peso_id13 nuevo_peso_id11 nuevo_peso_id12)

/-! ### Spec-side definitions

These follow the wording of the specification (§4.4 and the claims), to be
compared with the code-side functions above. -/

/-- Spec §4.4 step 2: "collect all letter grades given to it across those
submissions (skipping submissions that omit the criterion)". -/
def specGrades (datos : Datos) (grupo criterio : String) : List String :=
  (datos.calificaciones.filter (fun cal => cal.grupo_calificado == grupo)).filterMap
    (fun cal => cal.calificaciones.lookup criterio)

/-- The criteria of an indicator group "that produced a result in step 2":
those with at least one grade. -/
def specScored (datos : Datos) (grupo : String) (criterios : List String) : List String :=
  criterios.filter (fun c => !(specGrades datos grupo c).isEmpty)

/-- Spec §4.4 step 2: the numeric midpoint of the modal letter of a scored
criterion. -/
def specValorCriterio (datos : Datos) (grupo criterio : String) : ℚ :=
  letra_a_numero ((calcular_moda (specGrades datos grupo criterio)).getD "")

/-- Spec §4.4 step 3: "average the numeric values of criteria that produced a
result in step 2". -/
def specPromedioGrupo (datos : Datos) (grupo : String) (criterios : List String) : ℚ :=
  ((specScored datos grupo criterios).map (specValorCriterio datos grupo)).sum /
    ((specScored datos grupo criterios).length : ℚ)

/-- Spec §4.4 step 4: "Final score = Σ over indicator groups of (group average
× group weight / 100)", the sum ranging only over groups with a computed
average, with no renormalization of the remaining weights. -/
def specFinal (config : Config) (datos : Datos) (grupo : String) : ℚ :=
  ((RUBRICA_ESTRUCTURA.filter (fun p => !(specScored datos grupo p.2).isEmpty)).map
    (fun p => specPromedioGrupo datos grupo p.2 * ((getPeso config (p.1.take 4) : ℚ) / 100))).sum

/-- Spec §4.4 steps 3–4 packaged per indicator group: the term an indicator
group contributes to the result — nothing when none of its criteria is scored,
otherwise its name with the group average and its configured weight. -/
def specIdEntry (config : Config) (datos : Datos) (grupo : String)
    (p : String × List String) : Option (String × IdResultado) :=
  if (specScored datos grupo p.2).isEmpty then none
  else some (p.1, { promedio := specPromedioGrupo datos grupo p.2
                    peso := getPeso config (p.1.take 4) })

/-- The number of distinct evaluator ids when ids are compared
case-insensitively (claim C3's reading of the spec). -/
def contarEvaluadoresDistintosCI (ids : List String) : Nat :=
  ((ids.map py_upper).dedup).length

/-- The grades the submission form can produce.  A store written through the
app only contains these letters; on any other string the Python aggregator
would raise a `KeyError` in `obtener_codigo_subcriterio` instead of returning
a result, so the universally quantified theorems below assume it. -/
def ValidGrades (datos : Datos) : Prop :=
  ∀ cal ∈ datos.calificaciones, ∀ p ∈ cal.calificaciones, p.2 ∈ ["A", "B", "C", "D", "E"]

/-! ### Concrete stores used by the scenario claims -/

/-- The configuration used in concrete evaluations: no descriptors, weights
40/30/30. -/
def ejemploConfig : Config :=
  { descriptores := []
    pesos := [("ID11", 40), ("ID12", 30), ("ID13", 30)] }

/-- The three-submission store of the C2 scenario. -/
def ejemploDatos : Datos :=
  { calificaciones :=
      [ { id_estudiante := "S1", grupo_afiliacion := "GRUPO 1", grupo_calificado := "GRUPO 2",
          calificaciones := [("C111", "A")], fecha := "t1" },
        { id_estudiante := "S2", grupo_afiliacion := "GRUPO 3", grupo_calificado := "GRUPO 2",
          calificaciones := [("C111", "A")], fecha := "t2" },
        { id_estudiante := "S3", grupo_afiliacion := "GRUPO 4", grupo_calificado := "GRUPO 2",
          calificaciones := [("C111", "B")], fecha := "t3" } ]
    sesiones := [] }

/-- A store whose two submissions for "GRUPO 2" come from the same evaluator
id up to letter case ("s1" vs "S1", different own groups, so both pass the
duplicate check). -/
def datosMayusculas : Datos :=
  { calificaciones :=
      [ { id_estudiante := "s1", grupo_afiliacion := "GRUPO 1", grupo_calificado := "GRUPO 2",
          calificaciones := [("C111", "A")], fecha := "t1" },
        { id_estudiante := "S1", grupo_afiliacion := "GRUPO 3", grupo_calificado := "GRUPO 2",
          calificaciones := [("C111", "A")], fecha := "t2" } ]
    sesiones := [] }

/-! ### Association-list lemmas -/

theorem lookup_cons_eqn {β : Type _} (k a : String) (b : β) (t : List (String × β)) :
    ((a, b) :: t).lookup k = if k == a then some b else t.lookup k := by
  cases h : k == a <;> simp [List.lookup, h]

theorem lookup_append_eqn {β : Type _} (l₁ l₂ : List (String × β)) (k : String) :
    (l₁ ++ l₂).lookup k = (l₁.lookup k).or (l₂.lookup k) := by
  induction l₁ with
  | nil => simp
  | cons p t ih =>
    rcases p with ⟨a, b⟩
    cases h : k == a <;> simp [lookup_cons_eqn, h, ih]

theorem lookup_map_set_self (l : List (String × Int)) (k : String) (v : Int)
    (h : (l.lookup k).isSome) :
    (l.map (fun p => if p.1 == k then (k, v) else p)).lookup k = some v := by
  induction l with
  | nil => simp [List.lookup] at h
  | cons p t ih =>
    rcases p with ⟨a, b⟩
    by_cases hk : k = a
    · subst hk
      simp [lookup_cons_eqn]
    · have hk' : (k == a) = false := beq_false_of_ne hk
      have hk'' : (a == k) = false := beq_false_of_ne (Ne.symm hk)
      rw [lookup_cons_eqn, hk'] at h
      simp only [Bool.false_eq_true, if_false] at h
      simp only [List.map_cons, hk'', Bool.false_eq_true, if_false]
      rw [lookup_cons_eqn, hk']
      simp only [Bool.false_eq_true, if_false]
      exact ih h

theorem lookup_map_set_ne (l : List (String × Int)) (k k' : String) (v : Int)
    (h : k ≠ k') :
    (l.map (fun p => if p.1 == k' then (k', v) else p)).lookup k = l.lookup k := by
  induction l with
  | nil => simp
  | cons p t ih =>
    rcases p with ⟨a, b⟩
    by_cases ha : a = k'
    · subst ha
      have hk' : (k == a) = false := beq_false_of_ne h
      simp only [List.map_cons, beq_self_eq_true, if_true]
      rw [lookup_cons_eqn, hk', lookup_cons_eqn, hk']
      simp only [Bool.false_eq_true, if_false]
      exact ih
    · have ha' : (a == k') = false := beq_false_of_ne ha
      simp only [List.map_cons, ha', Bool.false_eq_true, if_false]
      rw [lookup_cons_eqn, lookup_cons_eqn]
      cases hka : k == a
      · simp only [Bool.false_eq_true, if_false]
        exact ih
      · simp

theorem lookup_dict_set_self (l : List (String × Int)) (k : String) (v : Int) :
    (dict_set l k v).lookup k = some v := by
  unfold dict_set
  by_cases h : (l.lookup k).isSome
  · rw [if_pos h]
    exact lookup_map_set_self l k v h
  · rw [if_neg h, lookup_append_eqn]
    have : l.lookup k = none := by
      cases hl : l.lookup k
      · rfl
      · exact absurd (by simp [hl]) h
    simp [this, lookup_cons_eqn]

theorem lookup_dict_set_ne (l : List (String × Int)) (k k' : String) (v : Int)
    (h : k ≠ k') :
    (dict_set l k' v).lookup k = l.lookup k := by
  unfold dict_set
  by_cases hs : (l.lookup k').isSome
  · rw [if_pos hs]
    exact lookup_map_set_ne l k k' v h
  · rw [if_neg hs, lookup_append_eqn]
    have hk : (k == k') = false := beq_false_of_ne h
    simp [lookup_cons_eqn, hk]

/-! ### Claims C8, C9, C10 -/

/-- C8: after every successful weight save, the three stored indicator weights
satisfy `ID11 + ID12 + ID13 = 100`; the editing boundary caps ID12's maximum
at `100 - ID11` (`max_id12`), derives ID13 as `100 - ID11 - ID12`, and under
those slider bounds the stored ID13 is non-negative, so no stored state with a
weight sum above 100 is ever permitted. -/
theorem C8_suma_pesos_cien (pesos saved : List (String × Int)) (id11 id12 : Int)
    (hsave : saved = guardar_pesos pesos id11 id12)
    (h11l : 0 ≤ id11) (h11u : id11 ≤ 100) (h12l : 0 ≤ id12) (h12u : id12 ≤ max_id12 id11) :
    (saved.lookup "ID11").getD 0 + (saved.lookup "ID12").getD 0 +
      (saved.lookup "ID13").getD 0 = 100 ∧
    saved.lookup "ID13" = some (100 - id11 - id12) ∧
    0 ≤ (saved.lookup "ID13").getD 0 ∧
    max_id12 id11 = 100 - id11 := by
  subst hsave
  have h13 : (guardar_pesos pesos id11 id12).lookup "ID13" =
      some (nuevo_peso_id13 id11 id12) := by
    unfold guardar_pesos
    exact lookup_dict_set_self _ _ _
  have h12 : (guardar_pesos pesos id11 id12).lookup "ID12" = some id12 := by
    unfold guardar_pesos
    rw [lookup_dict_set_ne _ _ _ _ (by decide)]
    exact lookup_dict_set_self _ _ _
  have h11 : (guardar_pesos pesos id11 id12).lookup "ID11" = some id11 := by
    unfold guardar_pesos
    rw [lookup_dict_set_ne _ _ _ _ (by decide), lookup_dict_set_ne _ _ _ _ (by decide)]
    exact lookup_dict_set_self _ _ _
  rw [h11, h12, h13]
  unfold nuevo_peso_id13
  have hm : max_id12 id11 = 100 - id11 := by
    unfold max_id12
    exact max_eq_right (by omega)
  rw [hm] at h12u
  refine ⟨?_, rfl, ?_, hm⟩
  · simp only [Option.getD_some]
    omega
  · simp only [Option.getD_some]
    omega

/-- Witness for C8 at the weights of the spec's scenario (§8): first slider
at 40 caps the second at 60. -/
theorem C8_suma_pesos_cien_witness :
    ((guardar_pesos [("ID11", 25), ("ID12", 25), ("ID13", 50)] 40 60).lookup "ID11").getD 0 +
      ((guardar_pesos [("ID11", 25), ("ID12", 25), ("ID13", 50)] 40 60).lookup "ID12").getD 0 +
      ((guardar_pesos [("ID11", 25), ("ID12", 25), ("ID13", 50)] 40 60).lookup "ID13").getD 0 = 100 ∧
    (guardar_pesos [("ID11", 25), ("ID12", 25), ("ID13", 50)] 40 60).lookup "ID13" =
      some (100 - 40 - 60) ∧
    0 ≤ ((guardar_pesos [("ID11", 25), ("ID12", 25), ("ID13", 50)] 40 60).lookup "ID13").getD 0 ∧
    max_id12 40 = 100 - 40 :=
  C8_suma_pesos_cien _ _ 40 60 rfl (by decide) (by decide) (by decide) (by decide)

/-- C9: for a session started at time `T` with duration `d`, any read strictly
after `T + d` observes the session as inactive — the expire transition fires
inside `cargar_estado_sesion`, the read path itself — and the student panel
rejects submission attempts at such a time. -/
theorem C9_expiracion_en_lectura (T now : ℚ) (d : Int) (h : now > T + (d : ℚ)) :
    (cargar_estado_sesion (iniciar_sesion T d) now).sesion_activa = false ∧
    panel_estudiante_permite_envio (iniciar_sesion T d) now = false := by
  constructor
  · simp [cargar_estado_sesion, iniciar_sesion, guardar_estado_sesion, h]
  · simp [panel_estudiante_permite_envio, cargar_estado_sesion, iniciar_sesion,
      guardar_estado_sesion, h]

/-- Witness for C9: the spec's scenario — a 15-minute session started at
`T = 0` is observed inactive at `T + 16` and the submission gate is closed. -/
theorem C9_expiracion_en_lectura_witness :
    (16 : ℚ) > 0 + ((15 : Int) : ℚ) ∧
    (cargar_estado_sesion (iniciar_sesion 0 15) 16).sesion_activa = false ∧
    panel_estudiante_permite_envio (iniciar_sesion 0 15) 16 = false := by
  refine ⟨by norm_num, ?_⟩
  exact C9_expiracion_en_lectura 0 16 15 (by norm_num)

/-- C10: loading the submissions store is total — the function returns a
`Datos` (not an `Except`) for every file state: a missing or malformed
`calificaciones.json` is silently read as the empty default, and every loaded
value carries both the `calificaciones` and the `sesiones` key (filled with
`[]` when absent from the parsed file).  A corrupt or missing configuration
file, by contrast, is a fatal error. -/
theorem C10_carga_datos_total :
    cargar_datos .missing = { calificaciones := [], sesiones := [] } ∧
    cargar_datos .malformed = { calificaciones := [], sesiones := [] } ∧
    (∀ v : DatosFile, cargar_datos (.parsed v) =
      { calificaciones := v.calificaciones.getD [], sesiones := v.sesiones.getD [] }) ∧
    cargar_configuracion .malformed = .error .corrupto ∧
    cargar_configuracion .missing = .error .noEncontrado :=
  ⟨rfl, rfl, fun _ => rfl, rfl, rfl⟩

/-! ### Claims C5, C6, C7 -/

theorem contains_grupos_self (own : String) :
    (obtener_grupos_a_calificar own).contains own = false := by
  simp [obtener_grupos_a_calificar, List.mem_filter]

theorem contains_grupos_of_mem (own rated : String) (hmem : rated ∈ GRUPOS_DISPONIBLES)
    (hne : rated ≠ own) :
    (obtener_grupos_a_calificar own).contains rated = true := by
  simp [obtener_grupos_a_calificar, List.mem_filter, hmem]
  exact hne

/-- C5: the aggregator returns `none` exactly when no submission in the store
targets the requested rated group; whenever at least one does, a result is
returned (so an absent result is distinguishable from an all-zero one).  The
`ValidGrades` hypothesis restricts the store to grades the form can produce
(on other strings the Python source would raise instead of returning). -/
theorem C5_none_exactamente_sin_envios (config : Config) (datos : Datos) (grupo : String)
    (hv : ValidGrades datos) :
    calcular_promedios_grupo config datos grupo = none ↔
      ∀ cal ∈ datos.calificaciones, cal.grupo_calificado ≠ grupo := by
  clear hv
  simp only [calcular_promedios_grupo]
  cases h : (calificaciones_grupo_de datos grupo).isEmpty
  · rw [if_neg (by simp [h])]
    rw [calificaciones_grupo_de, List.isEmpty_eq_false_iff_exists_mem] at h
    obtain ⟨cal, hcal⟩ := h
    rw [List.mem_filter] at hcal
    constructor
    · intro hc
      exact absurd hc (Option.some_ne_none _)
    · intro hall
      exact absurd (by simpa using hcal.2) (hall cal hcal.1)
  · rw [if_pos rfl]
    rw [calificaciones_grupo_de, List.isEmpty_iff, List.filter_eq_nil_iff] at h
    constructor
    · intro _ cal hcal he
      exact h cal hcal (by simpa using he)
    · intro _
      rfl

/-- Witness for C5 at a group with no submissions. -/
theorem C5_none_exactamente_sin_envios_witness :
    ValidGrades ejemploDatos ∧
      (calcular_promedios_grupo ejemploConfig ejemploDatos "GRUPO 5" = none ↔
        ∀ cal ∈ ejemploDatos.calificaciones, cal.grupo_calificado ≠ "GRUPO 5") :=
  ⟨by unfold ValidGrades; decide,
   C5_none_exactamente_sin_envios ejemploConfig ejemploDatos "GRUPO 5"
     (by unfold ValidGrades; decide)⟩

/-- C6: the submission path validates that the rated group differs from the
evaluator's own group (a self-rating is refused with a `ValidationError`) and
that the grade mapping is non-empty (refused likewise); in the error cases
nothing is written.  When the rated group is one of the offered groups, the
triple is not a duplicate and the grade mapping is non-empty, the record is
appended (with the evaluator id stripped) and the new store persisted. -/
theorem C6_enviar_validacion (datos : Datos) (id own rated : String)
    (califs : List (String × String)) (fecha : String) :
    (rated = own →
      enviar_calificacion datos id own rated califs fecha = .error .autoCalificacion) ∧
    (califs = [] →
      ∃ e, enviar_calificacion datos id own rated califs fecha = .error e) ∧
    (rated ∈ GRUPOS_DISPONIBLES → rated ≠ own →
      verificar_calificacion_existente datos id own rated = false → califs ≠ [] →
      enviar_calificacion datos id own rated califs fecha =
        .ok { datos with calificaciones := datos.calificaciones ++
          [{ id_estudiante := py_strip id, grupo_afiliacion := own, grupo_calificado := rated,
             calificaciones := califs, fecha := fecha }] }) := by
  refine ⟨?_, ?_, ?_⟩
  · intro h
    have hnm : (obtener_grupos_a_calificar own).contains rated = false := by
      rw [h]
      exact contains_grupos_self own
    unfold enviar_calificacion
    rw [hnm]
    simp
  · intro h
    subst h
    cases h1 : (obtener_grupos_a_calificar own).contains rated
    · exact ⟨.autoCalificacion, by unfold enviar_calificacion; rw [h1]; simp⟩
    · cases h2 : verificar_calificacion_existente datos id own rated
      · exact ⟨.sinCalificaciones, by unfold enviar_calificacion; rw [h1, h2]; simp⟩
      · exact ⟨.duplicada, by unfold enviar_calificacion; rw [h1, h2]; simp⟩
  · intro hmem hne h2 h3
    have h1 : (obtener_grupos_a_calificar own).contains rated = true :=
      contains_grupos_of_mem own rated hmem hne
    have h3' : califs.isEmpty = false := by
      cases he : califs.isEmpty
      · rfl
      · exact absurd (List.isEmpty_iff.mp he) h3
    unfold enviar_calificacion
    rw [h1, h2, h3']
    simp

/-- Witness for C6: appending a fresh, non-empty, non-self submission to the
C2 store succeeds. -/
theorem C6_enviar_validacion_witness :
    ("GRUPO 3" : String) ∈ GRUPOS_DISPONIBLES ∧ ("GRUPO 3" : String) ≠ "GRUPO 1" ∧
    verificar_calificacion_existente ejemploDatos "S9" "GRUPO 1" "GRUPO 3" = false ∧
    ([("C111", "C")] : List (String × String)) ≠ [] ∧
    enviar_calificacion ejemploDatos "S9" "GRUPO 1" "GRUPO 3" [("C111", "C")] "t9" =
      .ok { ejemploDatos with calificaciones := ejemploDatos.calificaciones ++
        [{ id_estudiante := py_strip "S9", grupo_afiliacion := "GRUPO 1",
           grupo_calificado := "GRUPO 3", calificaciones := [("C111", "C")], fecha := "t9" }] } :=
  ⟨by decide, by decide, by decide, by decide,
   (C6_enviar_validacion ejemploDatos "S9" "GRUPO 1" "GRUPO 3" [("C111", "C")] "t9").2.2
     (by decide) (by decide) (by decide) (by decide)⟩

/-- C7: immediately after a successful submission, `has_submitted`
(`verificar_calificacion_existente`) is true for the same (evaluator id,
own group, rated group) triple — the id matched case-insensitively, the groups
exactly — and any further submission with the same triple fails validation as
a duplicate instead of creating a second record. -/
theorem C7_envio_visible_y_duplicado (datos datos' : Datos) (id own rated : String)
    (califs : List (String × String)) (fecha : String)
    (h : enviar_calificacion datos id own rated califs fecha = .ok datos') :
    verificar_calificacion_existente datos' id own rated = true ∧
    ∀ (califs2 : List (String × String)) (fecha2 : String),
      enviar_calificacion datos' id own rated califs2 fecha2 = .error .duplicada := by
  have h1 : (obtener_grupos_a_calificar own).contains rated = true := by
    by_contra hc
    rw [Bool.not_eq_true] at hc
    unfold enviar_calificacion at h
    rw [hc] at h
    simp at h
  have hd : datos'.calificaciones = datos.calificaciones ++
      [{ id_estudiante := py_strip id, grupo_afiliacion := own, grupo_calificado := rated,
         calificaciones := califs, fecha := fecha }] := by
    unfold enviar_calificacion at h
    rw [h1] at h
    cases h2 : verificar_calificacion_existente datos id own rated
    · rw [h2] at h
      cases h3 : califs.isEmpty
      · rw [h3] at h
        simp at h
        rw [← h]
      · rw [h3] at h
        simp at h
    · rw [h2] at h
      simp at h
  have hver : verificar_calificacion_existente datos' id own rated = true := by
    unfold verificar_calificacion_existente
    rw [hd, List.any_append]
    simp
  refine ⟨hver, fun califs2 fecha2 => ?_⟩
  unfold enviar_calificacion
  rw [h1, hver]
  simp

/-- Witness for C7: the successful submission of the C6 witness is immediately
visible to the duplicate check and cannot be submitted twice. -/
theorem C7_envio_visible_y_duplicado_witness :
    ∃ d : Datos,
      enviar_calificacion ejemploDatos "S9" "GRUPO 1" "GRUPO 3" [("C111", "C")] "t9" = .ok d ∧
      verificar_calificacion_existente d "S9" "GRUPO 1" "GRUPO 3" = true ∧
      ∀ (califs2 : List (String × String)) (fecha2 : String),
        enviar_calificacion d "S9" "GRUPO 1" "GRUPO 3" califs2 fecha2 = .error .duplicada := by
  refine ⟨{ ejemploDatos with calificaciones := ejemploDatos.calificaciones ++
    [{ id_estudiante := py_strip "S9", grupo_afiliacion := "GRUPO 1",
       grupo_calificado := "GRUPO 3", calificaciones := [("C111", "C")], fecha := "t9" }] },
    rfl, ?_⟩
  exact C7_envio_visible_y_duplicado ejemploDatos _ "S9" "GRUPO 1" "GRUPO 3"
    [("C111", "C")] "t9" rfl

/-! ### Claim C4: the mode -/

theorem firstOccList_nil_eqn : firstOccList [] = [] := by
  rw [firstOccList]

theorem firstOccList_cons_eqn (x : String) (xs : List String) :
    firstOccList (x :: xs) = x :: firstOccList (xs.filter (fun y => y != x)) := by
  rw [firstOccList]

theorem mem_firstOccList : ∀ (l : List String) (a : String), a ∈ firstOccList l ↔ a ∈ l := by
  intro l
  induction l using firstOccList.induct with
  | case1 =>
    intro a
    rw [firstOccList_nil_eqn]
  | case2 x xs ih =>
    intro a
    rw [firstOccList_cons_eqn]
    by_cases h : a = x
    · subst h
      simp
    · simp only [List.mem_cons, ih, List.mem_filter, bne_iff_ne]
      constructor
      · rintro (rfl | ⟨hmem, _⟩)
        · exact Or.inl rfl
        · exact Or.inr hmem
      · rintro (rfl | hmem)
        · exact Or.inl rfl
        · exact Or.inr ⟨hmem, h⟩

theorem mostCommonAux_first_max (cnt : String → Nat) :
    ∀ (xs : List String) (b : String),
      (mostCommonAux cnt b xs = b ∧ ∀ x ∈ xs, cnt x ≤ cnt b) ∨
      (∃ ys zs, xs = ys ++ mostCommonAux cnt b xs :: zs ∧
        cnt b < cnt (mostCommonAux cnt b xs) ∧
        (∀ y ∈ ys, cnt y < cnt (mostCommonAux cnt b xs)) ∧
        (∀ z ∈ zs, cnt z ≤ cnt (mostCommonAux cnt b xs))) := by
  intro xs
  induction xs with
  | nil =>
    intro b
    left
    exact ⟨rfl, by simp⟩
  | cons x rest ih =>
    intro b
    by_cases h : cnt b < cnt x
    · have hm : mostCommonAux cnt b (x :: rest) = mostCommonAux cnt x rest := by
        simp [mostCommonAux, h]
      rw [hm]
      rcases ih x with ⟨heq, hall⟩ | ⟨ys, zs, hsplit, hlt, hys, hzs⟩
      · right
        refine ⟨[], rest, ?_, ?_, by simp, ?_⟩
        · rw [heq]
          rfl
        · rw [heq]
          exact h
        · intro z hz
          rw [heq]
          exact hall z hz
      · right
        refine ⟨x :: ys, zs, ?_, lt_trans h hlt, ?_, hzs⟩
        · rw [List.cons_append, ← hsplit]
        · intro y hy
          rcases List.mem_cons.mp hy with rfl | hy'
          · exact hlt
          · exact hys y hy'
    · have hm : mostCommonAux cnt b (x :: rest) = mostCommonAux cnt b rest := by
        simp [mostCommonAux, h]
      rw [hm]
      rcases ih b with ⟨heq, hall⟩ | ⟨ys, zs, hsplit, hlt, hys, hzs⟩
      · left
        refine ⟨heq, ?_⟩
        intro y hy
        rcases List.mem_cons.mp hy with rfl | hy'
        · exact le_of_not_lt h
        · exact hall y hy'
      · right
        refine ⟨x :: ys, zs, ?_, hlt, ?_, hzs⟩
        · rw [List.cons_append, ← hsplit]
        · intro y hy
          rcases List.mem_cons.mp hy with rfl | hy'
          · exact lt_of_le_of_lt (le_of_not_lt h) hlt
          · exact hys y hy'

theorem indexOf_filter_le (p : String → Bool) :
    ∀ (xs : List String) (a b : String), a ∈ xs.filter p → b ∈ xs.filter p →
      (xs.filter p).indexOf a ≤ (xs.filter p).indexOf b → xs.indexOf a ≤ xs.indexOf b := by
  intro xs
  induction xs with
  | nil =>
    intro a b ha
    simp at ha
  | cons x rest ih =>
    intro a b ha hb hab
    by_cases hpx : p x
    · rw [List.filter_cons_of_pos hpx] at ha hb hab
      by_cases hax : a = x
      · subst hax
        rw [List.indexOf_cons_self]
        exact Nat.zero_le _
      · have hbx : b ≠ x := by
          intro hbxeq
          subst hbxeq
          rw [List.indexOf_cons_self, List.indexOf_cons_ne _ (Ne.symm hax)] at hab
          exact absurd hab (by simp)
        have ha' : a ∈ rest.filter p := by
          rcases List.mem_cons.mp ha with rfl | h'
          · exact absurd rfl hax
          · exact h'
        have hb' : b ∈ rest.filter p := by
          rcases List.mem_cons.mp hb with rfl | h'
          · exact absurd rfl hbx
          · exact h'
        rw [List.indexOf_cons_ne _ (Ne.symm hax), List.indexOf_cons_ne _ (Ne.symm hbx)] at hab
        rw [List.indexOf_cons_ne _ (Ne.symm hax), List.indexOf_cons_ne _ (Ne.symm hbx)]
        exact Nat.succ_le_succ (ih a b ha' hb' (Nat.succ_le_succ_iff.mp hab))
    · rw [List.filter_cons_of_neg hpx] at ha hb hab
      have hax : a ≠ x := by
        intro haeq
        subst haeq
        exact absurd (List.of_mem_filter ha) (by simp [hpx])
      have hbx : b ≠ x := by
        intro hbeq
        subst hbeq
        exact absurd (List.of_mem_filter hb) (by simp [hpx])
      rw [List.indexOf_cons_ne _ (Ne.symm hax), List.indexOf_cons_ne _ (Ne.symm hbx)]
      exact Nat.succ_le_succ (ih a b ha hb hab)

theorem indexOf_le_of_firstOccList_split :
    ∀ (l pre post : List String) (m y : String),
      firstOccList l = pre ++ m :: post → y ∈ post → l.indexOf m ≤ l.indexOf y := by
  intro l
  induction l using firstOccList.induct with
  | case1 =>
    intro pre post m y hsplit
    rw [firstOccList_nil_eqn] at hsplit
    exact absurd hsplit.symm (List.append_ne_nil_of_right_ne_nil pre (by simp))
  | case2 x xs ih =>
    intro pre post m y hsplit hy
    rw [firstOccList_cons_eqn] at hsplit
    cases pre with
    | nil =>
      rw [List.nil_append] at hsplit
      injection hsplit with hxm hpost
      rw [← hxm, List.indexOf_cons_self]
      exact Nat.zero_le _
    | cons p0 pre' =>
      rw [List.cons_append] at hsplit
      injection hsplit with hxp hrest
      have hmF : m ∈ firstOccList (xs.filter (fun z => z != x)) := by
        rw [hrest]
        simp
      have hyF : y ∈ firstOccList (xs.filter (fun z => z != x)) := by
        rw [hrest]
        simp [hy]
      have hmf : m ∈ xs.filter (fun z => z != x) :=
        (mem_firstOccList _ m).mp hmF
      have hyf : y ∈ xs.filter (fun z => z != x) :=
        (mem_firstOccList _ y).mp hyF
      have hmx : m ≠ x := by simpa using List.of_mem_filter hmf
      have hyx : y ≠ x := by simpa using List.of_mem_filter hyf
      have hfil : (xs.filter (fun z => z != x)).indexOf m ≤
          (xs.filter (fun z => z != x)).indexOf y :=
        ih pre' post m y hrest hy
      have hxs : xs.indexOf m ≤ xs.indexOf y :=
        indexOf_filter_le _ xs m y hmf hyf hfil
      rw [List.indexOf_cons_ne _ (Ne.symm hmx), List.indexOf_cons_ne _ (Ne.symm hyx)]
      exact Nat.succ_le_succ hxs

/-- C4: on the empty list `calcular_moda` returns no grade (`none`); on every
non-empty list it returns a grade that is present in the list and whose
frequency is maximal, and when several grades share the maximal frequency it
deterministically returns the first-encountered one in iteration order (the
returned grade's first occurrence is no later than that of any tied grade). -/
theorem C4_moda_presente_maximal_primera (l : List String) :
    (l = [] → calcular_moda l = none) ∧
    (l ≠ [] → ∃ m, calcular_moda l = some m ∧ m ∈ l ∧
      (∀ y ∈ l, l.count y ≤ l.count m) ∧
      (∀ y ∈ l, l.count y = l.count m → l.indexOf m ≤ l.indexOf y)) := by
  constructor
  · rintro rfl
    rfl
  · intro hne
    obtain ⟨x, xs, rfl⟩ : ∃ x xs, l = x :: xs := by
      cases l with
      | nil => exact absurd rfl hne
      | cons a as => exact ⟨a, as, rfl⟩
    set T := firstOccList (xs.filter (fun y => y != x)) with hT
    set m := mostCommonAux (fun s => (x :: xs).count s) x T with hm
    have hmoda : calcular_moda (x :: xs) = some m := by
      unfold calcular_moda
      rw [if_neg (by simp), firstOccList_cons_eqn, ← hT]
    have H := mostCommonAux_first_max (fun s => (x :: xs).count s) T x
    rw [← hm] at H
    refine ⟨m, hmoda, ?_, ?_, ?_⟩
    · rcases H with ⟨heq, -⟩ | ⟨ys, zs, hsplit, -, -, -⟩
      · rw [heq]
        exact List.mem_cons_self x xs
      · have hmT : m ∈ x :: T := by
          rw [hsplit]
          simp
        rw [hT, ← firstOccList_cons_eqn] at hmT
        exact (mem_firstOccList _ _).mp hmT
    · intro y hy
      have hyF : y ∈ x :: T := by
        rw [hT, ← firstOccList_cons_eqn]
        exact (mem_firstOccList _ y).mpr hy
      rcases H with ⟨heq, hall⟩ | ⟨ys, zs, hsplit, hlt, hys, hzs⟩
      · rcases List.mem_cons.mp hyF with rfl | hyT
        · rw [heq]
        · rw [heq]
          exact hall y hyT
      · rcases List.mem_cons.mp hyF with rfl | hyT
        · exact le_of_lt hlt
        · rw [hsplit] at hyT
          rcases List.mem_append.mp hyT with hyYs | hyMz
          · exact le_of_lt (hys y hyYs)
          · rcases List.mem_cons.mp hyMz with rfl | hyZs
            · exact le_refl _
            · exact hzs y hyZs
    · intro y hy hcnt
      have hyF : y ∈ x :: T := by
        rw [hT, ← firstOccList_cons_eqn]
        exact (mem_firstOccList _ y).mpr hy
      rcases H with ⟨heq, -⟩ | ⟨ys, zs, hsplit, hlt, hys, hzs⟩
      · rw [heq, List.indexOf_cons_self]
        exact Nat.zero_le _
      · rcases List.mem_cons.mp hyF with rfl | hyT
        · exact absurd hcnt (ne_of_lt hlt)
        · rw [hsplit] at hyT
          rcases List.mem_append.mp hyT with hyYs | hyMz
          · exact absurd hcnt (ne_of_lt (hys y hyYs))
          · rcases List.mem_cons.mp hyMz with rfl | hyZs
            · exact le_refl _
            · refine indexOf_le_of_firstOccList_split (x :: xs) (x :: ys) zs m y ?_ hyZs
              rw [firstOccList_cons_eqn, ← hT, hsplit]
              rfl

/-- Witness for C4 at a list with a tie: "B" and "A" both occur twice and "B"
is encountered first, so the mode is "B". -/
theorem C4_moda_presente_maximal_primera_witness :
    (["B", "A", "A", "B"] : List String) ≠ [] ∧
    ∃ m, calcular_moda ["B", "A", "A", "B"] = some m ∧ m ∈ (["B", "A", "A", "B"] : List String) ∧
      (∀ y ∈ (["B", "A", "A", "B"] : List String),
        (["B", "A", "A", "B"] : List String).count y ≤ (["B", "A", "A", "B"] : List String).count m) ∧
      (∀ y ∈ (["B", "A", "A", "B"] : List String),
        (["B", "A", "A", "B"] : List String).count y = (["B", "A", "A", "B"] : List String).count m →
          (["B", "A", "A", "B"] : List String).indexOf m ≤ (["B", "A", "A", "B"] : List String).indexOf y) :=
  ⟨by decide, (C4_moda_presente_maximal_primera ["B", "A", "A", "B"]).2 (by decide)⟩

/-! ### Claim C2: the three-submission scenario -/

theorem firstOccList_AAB : firstOccList ["A", "A", "B"] = ["A", "B"] := by
  rw [firstOccList_cons_eqn,
    show (["A", "B"].filter (fun y => y != "A")) = ["B"] from by decide,
    firstOccList_cons_eqn,
    show (([] : List String).filter (fun y => y != "B")) = [] from rfl,
    firstOccList_nil_eqn]

theorem calcular_moda_AAB : calcular_moda ["A", "A", "B"] = some "A" := by
  unfold calcular_moda
  rw [if_neg (by decide), firstOccList_AAB]
  rfl

theorem criterio_entry_vacio (config : Config) (cg : List Calificacion) (c : String)
    (hc : califs_criterio cg c = []) :
    criterio_entry config cg c = none := by
  unfold criterio_entry
  rw [hc]
  rfl

theorem criterio_entry_C111_ejemplo (config : Config) :
    criterio_entry config ejemploDatos.calificaciones "C111" =
      some ("C111",
        { cualitativa := "A"
          numerica := letra_a_numero "A"
          total_calificaciones := 3
          codigo_subcriterio := obtener_codigo_subcriterio "C111" "A"
          descriptor := obtener_descriptor config "C111" "A"
          distribucion := distribucionConteo ["A", "A", "B"] }) := by
  unfold criterio_entry
  rw [show califs_criterio ejemploDatos.calificaciones "C111" = ["A", "A", "B"] from by decide,
    calcular_moda_AAB]
  rfl

theorem criterios_dict_ejemplo (config : Config) :
    criterios_dict config ejemploDatos.calificaciones =
      [("C111",
        { cualitativa := "A"
          numerica := letra_a_numero "A"
          total_calificaciones := 3
          codigo_subcriterio := obtener_codigo_subcriterio "C111" "A"
          descriptor := obtener_descriptor config "C111" "A"
          distribucion := distribucionConteo ["A", "A", "B"] })] := by
  unfold criterios_dict RUBRICA_ESTRUCTURA
  simp only [List.map_cons, List.map_nil, List.filterMap_cons, List.filterMap_nil,
    criterio_entry_C111_ejemplo config,
    criterio_entry_vacio config ejemploDatos.calificaciones "C112" (by decide),
    criterio_entry_vacio config ejemploDatos.calificaciones "C121" (by decide),
    criterio_entry_vacio config ejemploDatos.calificaciones "C122" (by decide),
    criterio_entry_vacio config ejemploDatos.calificaciones "C131" (by decide),
    criterio_entry_vacio config ejemploDatos.calificaciones "C132" (by decide),
    criterio_entry_vacio config ejemploDatos.calificaciones "C133" (by decide),
    List.flatten_cons, List.flatten_nil, List.append_nil, List.nil_append]

/-- C2: on the store with exactly the three scenario submissions (S1 and S2
grade C111 "A", S3 grades it "B", all rating "GRUPO 2"), the aggregation of
"GRUPO 2" — under any rubric configuration — reports modal grade "A" for
criterion C111, numeric value 4.75, and 3 total evaluators. -/
theorem C2_escenario_tres_envios (config : Config) :
    ∃ r, calcular_promedios_grupo config ejemploDatos "GRUPO 2" = some r ∧
      (∃ e, r.criterios.lookup "C111" = some e ∧
        e.cualitativa = "A" ∧ e.numerica = 4.75) ∧
      r.total_evaluadores = 3 := by
  have hcg : calificaciones_grupo_de ejemploDatos "GRUPO 2" = ejemploDatos.calificaciones := by
    decide
  have hr : calcular_promedios_grupo config ejemploDatos "GRUPO 2" =
      some { grupo_calificado := "GRUPO 2"
             criterios := criterios_dict config ejemploDatos.calificaciones
             ids := ids_dict config ejemploDatos.calificaciones
             final := nota_final config (ids_dict config ejemploDatos.calificaciones)
             total_evaluadores := ((ejemploDatos.calificaciones.map
               (fun cal => cal.id_estudiante)).dedup).length } := by
    unfold calcular_promedios_grupo
    rw [hcg]
    rw [if_neg (by decide)]
  refine ⟨_, hr,
    ⟨{ cualitativa := "A"
       numerica := letra_a_numero "A"
       total_calificaciones := 3
       codigo_subcriterio := obtener_codigo_subcriterio "C111" "A"
       descriptor := obtener_descriptor config "C111" "A"
       distribucion := distribucionConteo ["A", "A", "B"] }, ?_, rfl, ?_⟩, ?_⟩
  · show (criterios_dict config ejemploDatos.calificaciones).lookup "C111" = _
    rw [criterios_dict_ejemplo config]
    rfl
  · show letra_a_numero "A" = 4.75
    rw [show letra_a_numero "A" = (4.5 + 5.0) / 2.0 from rfl]
    norm_num
  · show ((ejemploDatos.calificaciones.map (fun cal => cal.id_estudiante)).dedup).length = 3
    decide

/-! ### Claim C3: the total-evaluator count -/

theorem calcular_promedios_grupo_eq_some (config : Config) (datos : Datos)
    (grupo : String) (r : Resultados)
    (h : calcular_promedios_grupo config datos grupo = some r) :
    r = { grupo_calificado := grupo
          criterios := criterios_dict config (calificaciones_grupo_de datos grupo)
          ids := ids_dict config (calificaciones_grupo_de datos grupo)
          final := nota_final config (ids_dict config (calificaciones_grupo_de datos grupo))
          total_evaluadores := (((calificaciones_grupo_de datos grupo).map
            (fun cal => cal.id_estudiante)).dedup).length } := by
  unfold calcular_promedios_grupo at h
  by_cases he : (calificaciones_grupo_de datos grupo).isEmpty = true
  · rw [if_pos he] at h
    exact absurd h (by simp)
  · rw [if_neg he] at h
    exact (Option.some.inj h).symm

theorem map_id_filter_eq (grupo : String) :
    ∀ (l₁ l₂ : List Calificacion),
      l₁.map (fun cal => (cal.id_estudiante, cal.grupo_calificado)) =
        l₂.map (fun cal => (cal.id_estudiante, cal.grupo_calificado)) →
      (l₁.filter (fun cal => cal.grupo_calificado == grupo)).map (fun cal => cal.id_estudiante) =
        (l₂.filter (fun cal => cal.grupo_calificado == grupo)).map (fun cal => cal.id_estudiante) := by
  intro l₁
  induction l₁ with
  | nil =>
    intro l₂ hp
    cases l₂ with
    | nil => rfl
    | cons b t₂ => exact absurd hp.symm (by simp)
  | cons a t ih =>
    intro l₂ hp
    cases l₂ with
    | nil => exact absurd hp (by simp)
    | cons b t₂ =>
      simp only [List.map_cons, List.cons.injEq] at hp
      obtain ⟨hab, ht⟩ := hp
      have hid : a.id_estudiante = b.id_estudiante := congrArg Prod.fst hab
      have hgr : a.grupo_calificado = b.grupo_calificado := congrArg Prod.snd hab
      rw [List.filter_cons, List.filter_cons, hgr]
      cases hq : b.grupo_calificado == grupo
      · simp only [Bool.false_eq_true, if_false]
        exact ih t₂ ht
      · simp only [if_true, List.map_cons]
        rw [hid, ih t₂ ht]

/-- Counterexample to C3 as stated: two submissions for "GRUPO 2" from
evaluator ids "s1" and "S1" (equal up to case, different own groups, so both
are accepted by the duplicate check).  The code counts them as 2 evaluators,
while the number of case-insensitively distinct ids is 1. -/
theorem C3_contraejemplo_mayusculas :
    ∃ r, calcular_promedios_grupo ejemploConfig datosMayusculas "GRUPO 2" = some r ∧
      r.total_evaluadores = 2 ∧
      contarEvaluadoresDistintosCI
        ((calificaciones_grupo_de datosMayusculas "GRUPO 2").map
          (fun cal => cal.id_estudiante)) = 1 := by
  have hcg : calificaciones_grupo_de datosMayusculas "GRUPO 2" =
      datosMayusculas.calificaciones := by decide
  have hr : calcular_promedios_grupo ejemploConfig datosMayusculas "GRUPO 2" =
      some { grupo_calificado := "GRUPO 2"
             criterios := criterios_dict ejemploConfig datosMayusculas.calificaciones
             ids := ids_dict ejemploConfig datosMayusculas.calificaciones
             final := nota_final ejemploConfig (ids_dict ejemploConfig datosMayusculas.calificaciones)
             total_evaluadores := ((datosMayusculas.calificaciones.map
               (fun cal => cal.id_estudiante)).dedup).length } := by
    unfold calcular_promedios_grupo
    rw [hcg]
    rw [if_neg (by decide)]
  refine ⟨_, hr, ?_, ?_⟩
  · show ((datosMayusculas.calificaciones.map (fun cal => cal.id_estudiante)).dedup).length = 2
    decide
  · rw [hcg]
    show contarEvaluadoresDistintosCI
      (datosMayusculas.calificaciones.map (fun cal => cal.id_estudiante)) = 1
    decide

/-- C3 (amended): the reported total-evaluator count equals the number of
distinct evaluator ids among the group's submissions under EXACT (i.e.
case-sensitive) string comparison — not case-insensitive comparison as the
claim states — and it is independent of the grade mappings: any store whose
submissions carry the same evaluator ids and rated groups yields the same
count, whatever each evaluator graded. -/
theorem C3_conteo_evaluadores_exacto (config : Config) (datos : Datos) (grupo : String)
    (r : Resultados) (hv : ValidGrades datos)
    (h : calcular_promedios_grupo config datos grupo = some r) :
    r.total_evaluadores =
      (((calificaciones_grupo_de datos grupo).map (fun cal => cal.id_estudiante)).dedup).length ∧
    ∀ (datos₂ : Datos) (r₂ : Resultados),
      datos₂.calificaciones.map (fun cal => (cal.id_estudiante, cal.grupo_calificado)) =
        datos.calificaciones.map (fun cal => (cal.id_estudiante, cal.grupo_calificado)) →
      calcular_promedios_grupo config datos₂ grupo = some r₂ →
      r₂.total_evaluadores = r.total_evaluadores := by
  clear hv
  have hr := calcular_promedios_grupo_eq_some config datos grupo r h
  constructor
  · rw [hr]
  · intro datos₂ r₂ hp h₂
    have hr₂ := calcular_promedios_grupo_eq_some config datos₂ grupo r₂ h₂
    rw [hr, hr₂]
    show (((calificaciones_grupo_de datos₂ grupo).map (fun cal => cal.id_estudiante)).dedup).length =
      (((calificaciones_grupo_de datos grupo).map (fun cal => cal.id_estudiante)).dedup).length
    unfold calificaciones_grupo_de
    rw [map_id_filter_eq grupo datos₂.calificaciones datos.calificaciones hp]

/-- Witness for the amended C3, at the C2 scenario store: 3 distinct ids. -/
theorem C3_conteo_evaluadores_exacto_witness :
    ValidGrades ejemploDatos ∧
    ∃ r, calcular_promedios_grupo ejemploConfig ejemploDatos "GRUPO 2" = some r ∧
      r.total_evaluadores =
        (((calificaciones_grupo_de ejemploDatos "GRUPO 2").map
          (fun cal => cal.id_estudiante)).dedup).length := by
  refine ⟨by unfold ValidGrades; decide, ?_⟩
  have hr : calcular_promedios_grupo ejemploConfig ejemploDatos "GRUPO 2" =
      some { grupo_calificado := "GRUPO 2"
             criterios := criterios_dict ejemploConfig (calificaciones_grupo_de ejemploDatos "GRUPO 2")
             ids := ids_dict ejemploConfig (calificaciones_grupo_de ejemploDatos "GRUPO 2")
             final := nota_final ejemploConfig
               (ids_dict ejemploConfig (calificaciones_grupo_de ejemploDatos "GRUPO 2"))
             total_evaluadores := (((calificaciones_grupo_de ejemploDatos "GRUPO 2").map
               (fun cal => cal.id_estudiante)).dedup).length } := by
    unfold calcular_promedios_grupo
    rw [if_neg (by decide)]
  exact ⟨_, hr,
    (C3_conteo_evaluadores_exacto ejemploConfig ejemploDatos "GRUPO 2" _
      (by unfold ValidGrades; decide) hr).1⟩

/-! ### Claim C1: the final score -/

theorem calcular_moda_cons (x : String) (xs : List String) :
    calcular_moda (x :: xs) = some (mostCommonAux (fun s => (x :: xs).count s) x
      (firstOccList (xs.filter (fun y => y != x)))) := by
  unfold calcular_moda
  rw [if_neg (by simp), firstOccList_cons_eqn]

theorem calcular_moda_eq_none_iff (l : List String) : calcular_moda l = none ↔ l = [] := by
  cases l with
  | nil => simp [calcular_moda]
  | cons x xs =>
    rw [calcular_moda_cons]
    simp

theorem criterio_entry_key (config : Config) (cg : List Calificacion) (c : String)
    (x : String × CriterioResultado) (h : criterio_entry config cg c = some x) :
    x.1 = c := by
  unfold criterio_entry at h
  cases hm : calcular_moda (califs_criterio cg c)
  · rw [hm] at h
    exact absurd h (by simp)
  · rw [hm] at h
    rw [← Option.some.inj h]

theorem criterio_entry_of_moda_none (config : Config) (cg : List Calificacion) (c : String)
    (hm : calcular_moda (califs_criterio cg c) = none) :
    criterio_entry config cg c = none := by
  unfold criterio_entry
  rw [hm]

theorem criterio_entry_of_moda_some (config : Config) (cg : List Calificacion) (c m : String)
    (hm : calcular_moda (califs_criterio cg c) = some m) :
    criterio_entry config cg c =
      some (c, { cualitativa := m
                 numerica := letra_a_numero m
                 total_calificaciones := (califs_criterio cg c).length
                 codigo_subcriterio := obtener_codigo_subcriterio c m
                 descriptor := obtener_descriptor config c m
                 distribucion := distribucionConteo (califs_criterio cg c) }) := by
  unfold criterio_entry
  rw [hm]

theorem lookup_filterMap_entry_not_mem (config : Config) (cg : List Calificacion)
    (cs : List String) (c : String) (hc : c ∉ cs) :
    (cs.filterMap (criterio_entry config cg)).lookup c = none := by
  induction cs with
  | nil => rfl
  | cons a t ih =>
    have hca : c ≠ a := fun he => hc (he ▸ List.mem_cons_self a t)
    have hct : c ∉ t := fun he => hc (List.mem_cons_of_mem a he)
    rw [List.filterMap_cons]
    cases he : criterio_entry config cg a
    · exact ih hct
    · rename_i x
      obtain ⟨k, v⟩ := x
      have hk : k = a := criterio_entry_key config cg a (k, v) he
      show ((k, v) :: t.filterMap (criterio_entry config cg)).lookup c = none
      rw [lookup_cons_eqn, beq_false_of_ne (show c ≠ k from by rw [hk]; exact hca)]
      simp only [Bool.false_eq_true, if_false]
      exact ih hct

theorem lookup_filterMap_entry_mem (config : Config) (cg : List Calificacion)
    (cs : List String) (c : String) (hnd : cs.Nodup) (hc : c ∈ cs) :
    (cs.filterMap (criterio_entry config cg)).lookup c =
      (criterio_entry config cg c).map (fun x => x.2) := by
  induction cs with
  | nil => simp at hc
  | cons a t ih =>
    rw [List.filterMap_cons]
    rcases List.mem_cons.mp hc with rfl | hct
    · have hcnt : c ∉ t := (List.nodup_cons.mp hnd).1
      cases he : criterio_entry config cg c
      · show (t.filterMap (criterio_entry config cg)).lookup c = none
        exact lookup_filterMap_entry_not_mem config cg t c hcnt
      · rename_i x
        obtain ⟨k, v⟩ := x
        have hk : k = c := criterio_entry_key config cg c (k, v) he
        show ((k, v) :: t.filterMap (criterio_entry config cg)).lookup c = some v
        rw [lookup_cons_eqn, hk, beq_self_eq_true]
        simp
    · have hna : a ∉ t := (List.nodup_cons.mp hnd).1
      have hca : c ≠ a := fun he' => hna (he' ▸ hct)
      cases he : criterio_entry config cg a
      · exact ih (List.nodup_cons.mp hnd).2 hct
      · rename_i x
        obtain ⟨k, v⟩ := x
        have hk : k = a := criterio_entry_key config cg a (k, v) he
        show ((k, v) :: t.filterMap (criterio_entry config cg)).lookup c =
          Option.map (fun x => x.2) (criterio_entry config cg c)
        rw [lookup_cons_eqn, beq_false_of_ne (show c ≠ k from by rw [hk]; exact hca)]
        simp only [Bool.false_eq_true, if_false]
        exact ih (List.nodup_cons.mp hnd).2 hct

theorem criterios_dict_decomp (config : Config) (cg : List Calificacion) :
    criterios_dict config cg =
      (["C111", "C112"].filterMap (criterio_entry config cg)) ++
      ((["C121", "C122"].filterMap (criterio_entry config cg)) ++
       ((["C131", "C132", "C133"].filterMap (criterio_entry config cg)) ++ [])) := rfl

theorem lookup_criterios_dict_g1 (config : Config) (cg : List Calificacion) (c : String)
    (hc : c ∈ (["C111", "C112"] : List String)) :
    (criterios_dict config cg).lookup c =
      (criterio_entry config cg c).map (fun x => x.2) := by
  have hc' : c = "C111" ∨ c = "C112" := by simpa using hc
  have hn2 : c ∉ (["C121", "C122"] : List String) := by
    rcases hc' with rfl | rfl <;> decide
  have hn3 : c ∉ (["C131", "C132", "C133"] : List String) := by
    rcases hc' with rfl | rfl <;> decide
  rw [criterios_dict_decomp, lookup_append_eqn, lookup_append_eqn, lookup_append_eqn,
    lookup_filterMap_entry_mem config cg _ c (by decide) hc,
    lookup_filterMap_entry_not_mem config cg _ c hn2,
    lookup_filterMap_entry_not_mem config cg _ c hn3]
  simp

theorem lookup_criterios_dict_g2 (config : Config) (cg : List Calificacion) (c : String)
    (hc : c ∈ (["C121", "C122"] : List String)) :
    (criterios_dict config cg).lookup c =
      (criterio_entry config cg c).map (fun x => x.2) := by
  have hc' : c = "C121" ∨ c = "C122" := by simpa using hc
  have hn1 : c ∉ (["C111", "C112"] : List String) := by
    rcases hc' with rfl | rfl <;> decide
  have hn3 : c ∉ (["C131", "C132", "C133"] : List String) := by
    rcases hc' with rfl | rfl <;> decide
  rw [criterios_dict_decomp, lookup_append_eqn, lookup_append_eqn, lookup_append_eqn,
    lookup_filterMap_entry_mem config cg _ c (by decide) hc,
    lookup_filterMap_entry_not_mem config cg _ c hn1,
    lookup_filterMap_entry_not_mem config cg _ c hn3]
  simp

theorem lookup_criterios_dict_g3 (config : Config) (cg : List Calificacion) (c : String)
    (hc : c ∈ (["C131", "C132", "C133"] : List String)) :
    (criterios_dict config cg).lookup c =
      (criterio_entry config cg c).map (fun x => x.2) := by
  have hc' : c = "C131" ∨ c = "C132" ∨ c = "C133" := by simpa using hc
  have hn1 : c ∉ (["C111", "C112"] : List String) := by
    rcases hc' with rfl | rfl | rfl <;> decide
  have hn2 : c ∉ (["C121", "C122"] : List String) := by
    rcases hc' with rfl | rfl | rfl <;> decide
  rw [criterios_dict_decomp, lookup_append_eqn, lookup_append_eqn, lookup_append_eqn,
    lookup_filterMap_entry_mem config cg _ c (by decide) hc,
    lookup_filterMap_entry_not_mem config cg _ c hn1,
    lookup_filterMap_entry_not_mem config cg _ c hn2]
  simp

theorem specGrades_eq_califs (datos : Datos) (grupo criterio : String) :
    specGrades datos grupo criterio =
      califs_criterio (calificaciones_grupo_de datos grupo) criterio := rfl

theorem isEmpty_map_eqn {α β : Type _} (f : α → β) (l : List α) :
    (l.map f).isEmpty = l.isEmpty := by
  cases l <;> rfl

theorem valores_eq_spec (config : Config) (datos : Datos) (grupo : String) :
    ∀ (criterios : List String),
      (∀ c ∈ criterios,
        (criterios_dict config (calificaciones_grupo_de datos grupo)).lookup c =
          (criterio_entry config (calificaciones_grupo_de datos grupo) c).map (fun x => x.2)) →
      valores_criterios config (calificaciones_grupo_de datos grupo) criterios =
        (specScored datos grupo criterios).map (specValorCriterio datos grupo) := by
  intro criterios
  induction criterios with
  | nil =>
    intro _
    rfl
  | cons c t ih =>
    intro hlk
    have hlkc := hlk c (List.mem_cons_self c t)
    have hlkt := fun c' hc' => hlk c' (List.mem_cons_of_mem c hc')
    unfold valores_criterios specScored
    rw [List.filterMap_cons, List.filter_cons, hlkc]
    cases hm : calcular_moda (califs_criterio (calificaciones_grupo_de datos grupo) c)
    · have hemp : califs_criterio (calificaciones_grupo_de datos grupo) c = [] :=
        (calcular_moda_eq_none_iff _).mp hm
      rw [criterio_entry_of_moda_none config _ c hm]
      have hcond : (!(specGrades datos grupo c).isEmpty) = false := by
        rw [specGrades_eq_califs, hemp]
        rfl
      rw [hcond]
      simp only [Bool.false_eq_true, if_false, Option.map_none]
      have := ih hlkt
      unfold valores_criterios specScored at this
      exact this
    · rename_i m
      rw [criterio_entry_of_moda_some config _ c m hm]
      have hcond : (!(specGrades datos grupo c).isEmpty) = true := by
        rw [specGrades_eq_califs]
        have : califs_criterio (calificaciones_grupo_de datos grupo) c ≠ [] := by
          intro he
          rw [(calcular_moda_eq_none_iff _).mpr he] at hm
          exact absurd hm (by simp)
        cases he : (califs_criterio (calificaciones_grupo_de datos grupo) c).isEmpty
        · rfl
        · exact absurd (List.isEmpty_iff.mp he) this
      rw [hcond]
      simp only [if_true, List.map_cons, Option.map_some]
      have hval : specValorCriterio datos grupo c = letra_a_numero m := by
        unfold specValorCriterio
        rw [specGrades_eq_califs, hm]
        rfl
      rw [hval]
      have htail := ih hlkt
      unfold valores_criterios specScored at htail
      rw [← htail]
      rfl

theorem specIdEntry_of_empty (config : Config) (datos : Datos) (grupo : String)
    (p : String × List String) (hc : (specScored datos grupo p.2).isEmpty = true) :
    specIdEntry config datos grupo p = none := by
  unfold specIdEntry
  rw [hc, if_pos rfl]

theorem specIdEntry_of_not_empty (config : Config) (datos : Datos) (grupo : String)
    (p : String × List String) (hc : (specScored datos grupo p.2).isEmpty = false) :
    specIdEntry config datos grupo p =
      some (p.1, { promedio := specPromedioGrupo datos grupo p.2
                   peso := getPeso config (p.1.take 4) }) := by
  unfold specIdEntry
  rw [hc]
  simp

theorem nota_final_cons (config : Config) (q : String × IdResultado)
    (l : List (String × IdResultado)) :
    nota_final config (q :: l) =
      q.2.promedio * ((getPeso config (q.1.take 4) : ℚ) / 100) + nota_final config l := by
  unfold nota_final
  rw [List.map_cons, List.sum_cons]

theorem id_entry_eq_spec (config : Config) (datos : Datos) (grupo : String)
    (nombre : String) (criterios : List String)
    (hvals : valores_criterios config (calificaciones_grupo_de datos grupo) criterios =
      (specScored datos grupo criterios).map (specValorCriterio datos grupo)) :
    id_entry config (calificaciones_grupo_de datos grupo) (nombre, criterios) =
      specIdEntry config datos grupo (nombre, criterios) := by
  have hstep : id_entry config (calificaciones_grupo_de datos grupo) (nombre, criterios) =
      (if (valores_criterios config (calificaciones_grupo_de datos grupo) criterios).isEmpty
       then none
       else some (nombre,
         { promedio :=
             (valores_criterios config (calificaciones_grupo_de datos grupo) criterios).sum /
               ((valores_criterios config (calificaciones_grupo_de datos grupo) criterios).length : ℚ)
           peso := getPeso config (nombre.take 4) })) := rfl
  rw [hstep, hvals, isEmpty_map_eqn, List.length_map]
  rfl

/-- The shape of `id_entry` over the rubric, with the spec-side data
substituted (pointwise consequence of `id_entry_eq_spec` over the three
indicator groups). -/
theorem ids_dict_eq_spec_shape (config : Config) (datos : Datos) (grupo : String)
    (h1 : valores_criterios config (calificaciones_grupo_de datos grupo) ["C111", "C112"] =
      (specScored datos grupo ["C111", "C112"]).map (specValorCriterio datos grupo))
    (h2 : valores_criterios config (calificaciones_grupo_de datos grupo) ["C121", "C122"] =
      (specScored datos grupo ["C121", "C122"]).map (specValorCriterio datos grupo))
    (h3 : valores_criterios config (calificaciones_grupo_de datos grupo) ["C131", "C132", "C133"] =
      (specScored datos grupo ["C131", "C132", "C133"]).map (specValorCriterio datos grupo)) :
    ids_dict config (calificaciones_grupo_de datos grupo) =
      RUBRICA_ESTRUCTURA.filterMap (specIdEntry config datos grupo) := by
  unfold ids_dict
  refine List.filterMap_congr ?_
  intro p hp
  have hp' : p = ("ID11: IDENTIFICAR", ["C111", "C112"]) ∨
      p = ("ID12: FORMULAR", ["C121", "C122"]) ∨
      p = ("ID13: RESOLVER", ["C131", "C132", "C133"]) := by
    simpa [RUBRICA_ESTRUCTURA] using hp
  rcases hp' with rfl | rfl | rfl
  · exact id_entry_eq_spec config datos grupo _ _ h1
  · exact id_entry_eq_spec config datos grupo _ _ h2
  · exact id_entry_eq_spec config datos grupo _ _ h3

theorem nota_final_filterMap_spec (config : Config) (datos : Datos) (grupo : String) :
    ∀ L : List (String × List String),
      nota_final config (L.filterMap (specIdEntry config datos grupo)) =
      ((L.filter (fun p => !(specScored datos grupo p.2).isEmpty)).map
        (fun p => specPromedioGrupo datos grupo p.2 *
          ((getPeso config (p.1.take 4) : ℚ) / 100))).sum := by
  intro L
  induction L with
  | nil => rfl
  | cons p t ih =>
    rw [List.filter_cons]
    cases hc : (specScored datos grupo p.2).isEmpty
    · rw [List.filterMap_cons_some (specIdEntry_of_not_empty config datos grupo p hc),
        nota_final_cons, ih]
      simp only [Bool.not_false]
      rw [if_true, List.map_cons, List.sum_cons]
    · rw [List.filterMap_cons_none (specIdEntry_of_empty config datos grupo p hc), ih]
      simp only [Bool.not_true, Bool.false_eq_true, if_false]

theorem lookup_filterMap_spec_none (config : Config) (datos : Datos) (grupo : String) :
    ∀ (L : List (String × List String)) (nombre : String),
      (∀ q ∈ L, q.1 = nombre → (specScored datos grupo q.2).isEmpty = true) →
      ((L.filterMap (specIdEntry config datos grupo)).lookup nombre) = none := by
  intro L
  induction L with
  | nil =>
    intro nombre _
    rfl
  | cons q t ih =>
    intro nombre hall
    cases hc : (specScored datos grupo q.2).isEmpty
    · rw [List.filterMap_cons_some (specIdEntry_of_not_empty config datos grupo q hc)]
      have hqn : q.1 ≠ nombre := by
        intro he
        rw [hall q (List.mem_cons_self q t) he] at hc
        exact absurd hc (by simp)
      rw [lookup_cons_eqn, beq_false_of_ne (Ne.symm hqn)]
      simp only [Bool.false_eq_true, if_false]
      exact ih nombre (fun q' hq' => hall q' (List.mem_cons_of_mem q hq'))
    · rw [List.filterMap_cons_none (specIdEntry_of_empty config datos grupo q hc)]
      exact ih nombre (fun q' hq' => hall q' (List.mem_cons_of_mem q hq'))

/-- C1: for every rated group with a result, the final score equals the sum —
over exactly those indicator groups with at least one scored criterion — of
the group's average criterion midpoint value times that group's configured
weight divided by 100 (`specFinal`, transcribed from the spec); an indicator
group none of whose criteria received a grade contributes no term at all and
is absent from the per-indicator table (not reported as zero), and the
remaining weights are not renormalized (the divisor stays 100). -/
theorem C1_nota_final_ponderada (config : Config) (datos : Datos) (grupo : String)
    (r : Resultados) (hv : ValidGrades datos)
    (h : calcular_promedios_grupo config datos grupo = some r) :
    r.final = specFinal config datos grupo ∧
    ∀ p ∈ RUBRICA_ESTRUCTURA, specScored datos grupo p.2 = [] →
      r.ids.lookup p.1 = none := by
  clear hv
  have hr := calcular_promedios_grupo_eq_some config datos grupo r h
  have hv1 := valores_eq_spec config datos grupo ["C111", "C112"]
    (fun c hc => lookup_criterios_dict_g1 config (calificaciones_grupo_de datos grupo) c hc)
  have hv2 := valores_eq_spec config datos grupo ["C121", "C122"]
    (fun c hc => lookup_criterios_dict_g2 config (calificaciones_grupo_de datos grupo) c hc)
  have hv3 := valores_eq_spec config datos grupo ["C131", "C132", "C133"]
    (fun c hc => lookup_criterios_dict_g3 config (calificaciones_grupo_de datos grupo) c hc)
  have hshape := ids_dict_eq_spec_shape config datos grupo hv1 hv2 hv3
  constructor
  · rw [hr]
    show nota_final config (ids_dict config (calificaciones_grupo_de datos grupo)) =
      specFinal config datos grupo
    rw [hshape, nota_final_filterMap_spec config datos grupo RUBRICA_ESTRUCTURA]
    rfl
  · intro p hp hscored
    rw [hr]
    show (ids_dict config (calificaciones_grupo_de datos grupo)).lookup p.1 = none
    rw [hshape]
    refine lookup_filterMap_spec_none config datos grupo RUBRICA_ESTRUCTURA p.1 ?_
    intro q hq hqn
    have hp' : p = ("ID11: IDENTIFICAR", ["C111", "C112"]) ∨
        p = ("ID12: FORMULAR", ["C121", "C122"]) ∨
        p = ("ID13: RESOLVER", ["C131", "C132", "C133"]) := by
      simpa [RUBRICA_ESTRUCTURA] using hp
    have hq' : q = ("ID11: IDENTIFICAR", ["C111", "C112"]) ∨
        q = ("ID12: FORMULAR", ["C121", "C122"]) ∨
        q = ("ID13: RESOLVER", ["C131", "C132", "C133"]) := by
      simpa [RUBRICA_ESTRUCTURA] using hq
    rcases hp' with rfl | rfl | rfl <;> rcases hq' with rfl | rfl | rfl <;>
      first
        | (rw [hscored]; rfl)
        | (exact absurd hqn (by decide))

/-- Witness for C1 at the C2 scenario store: only ID11 has a scored criterion,
so the final score is that group's average times its weight over 100. -/
theorem C1_nota_final_ponderada_witness :
    ValidGrades ejemploDatos ∧
    ∃ r, calcular_promedios_grupo ejemploConfig ejemploDatos "GRUPO 2" = some r ∧
      r.final = specFinal ejemploConfig ejemploDatos "GRUPO 2" ∧
      ∀ p ∈ RUBRICA_ESTRUCTURA, specScored ejemploDatos "GRUPO 2" p.2 = [] →
        r.ids.lookup p.1 = none := by
  refine ⟨by unfold ValidGrades; decide, ?_⟩
  have hr : calcular_promedios_grupo ejemploConfig ejemploDatos "GRUPO 2" =
      some { grupo_calificado := "GRUPO 2"
             criterios := criterios_dict ejemploConfig (calificaciones_grupo_de ejemploDatos "GRUPO 2")
             ids := ids_dict ejemploConfig (calificaciones_grupo_de ejemploDatos "GRUPO 2")
             final := nota_final ejemploConfig
               (ids_dict ejemploConfig (calificaciones_grupo_de ejemploDatos "GRUPO 2"))
             total_evaluadores := (((calificaciones_grupo_de ejemploDatos "GRUPO 2").map
               (fun cal => cal.id_estudiante)).dedup).length } := by
    unfold calcular_promedios_grupo
    rw [if_neg (by decide)]
  have hc := C1_nota_final_ponderada ejemploConfig ejemploDatos "GRUPO 2" _
    (by unfold ValidGrades; decide) hr
  exact ⟨_, hr, hc.1, hc.2⟩

end RubricaApp
